import Mathlib

/-!
Shallow embedding of the projectile / spell-effect lifecycle core of the
agent8-templates repository, together with theorems settling the frozen
claims about it.

Conventions of the embedding:
* JavaScript numbers are modelled as exact rationals (`ℚ`); the inputs used
  in the concrete scenarios are all exactly representable.
* `THREE.Vector3` is the `Vec3` structure below, with the `add`,
  `multiplyScalar`, `lerp` and `lengthSq` methods translated componentwise.
* React `useState` setters are modelled as functional state updates; a
  `useRef` that is synchronised to a state variable by a `useEffect`
  (e.g. `activeRef` in `ProjectileMagic`) is a separate field that is only
  copied from the state field by an explicit commit step, because the
  `useEffect` runs after the render commit, not inside the event batch.
* Callback invocations (`onHit`, `onComplete`, `onRemove`) are modelled by
  counters / logs in the state, since the claims are about how many times
  they fire.
* The Rapier physics world is an external collaborator: query results
  (ray-cast hits, reported contacts) are inputs to the embedded functions.
-/

/-- Componentwise rational 3-vector, the embedding of `THREE.Vector3`. -/
structure Vec3 where
  x : ℚ
  y : ℚ
  z : ℚ
  deriving DecidableEq

/-- Embedding of `THREE.Vector3.add` (componentwise sum). -/
def Vec3.add (a b : Vec3) : Vec3 :=
  ⟨a.x + b.x, a.y + b.y, a.z + b.z⟩

/-- Embedding of `THREE.Vector3.multiplyScalar`. -/
def Vec3.multiplyScalar (a : Vec3) (s : ℚ) : Vec3 :=
  ⟨a.x * s, a.y * s, a.z * s⟩

/-- Embedding of `THREE.Vector3.lerp`: componentwise
`this + (v - this) * alpha`. Note that the lerp of two unit vectors is in
general not a unit vector. -/
def Vec3.lerp (a b : Vec3) (alpha : ℚ) : Vec3 :=
  ⟨a.x + (b.x - a.x) * alpha, a.y + (b.y - a.y) * alpha, a.z + (b.z - a.z) * alpha⟩

/-- Embedding of `THREE.Vector3.lengthSq`. Squared length is used throughout
so that the embedding stays inside `ℚ` (`Math.sqrt` leaves the rationals). -/
def Vec3.lengthSq (a : Vec3) : ℚ :=
  a.x * a.x + a.y * a.y + a.z * a.z

/-- JavaScript truthiness of an optional number (`undefined` and `0` are
falsy), as used by guards such as `if (maxDistance)` and the `||` operator. -/
def jsTruthy (x : Option ℚ) : Bool :=
  match x with
  | none => false
  | some v => v != 0

/-- JavaScript `x || d` for an optional number `x`: yields the default both
when the field is absent and when it is `0` (falsy coalescing). -/
def jsOr (x : Option ℚ) (d : ℚ) : ℚ :=
  match x with
  | none => d
  | some v => if v = 0 then d else v

namespace Freeview.FireBall

/-!
Embedding of `basic-3d-freeview/src/components/spells/FireBall.tsx`.
-/

/-- State of one `FireBall` component: the kinematic body position and the
`active` React state flag. -/
structure State where
  position : Vec3
  active : Bool
  deriving DecidableEq

/-- The `next` position computed by the `useFrame` callback:
`startPosition.clone().add(direction.clone().multiplyScalar(speed * t))`,
where `t` is the elapsed time in seconds. -/
def nextPosition (startPosition direction : Vec3) (speed t : ℚ) : Vec3 :=
  startPosition.add (direction.multiplyScalar (speed * t))

/-- One `useFrame` tick at elapsed time `t`: if the fireball is inactive the
callback returns immediately, otherwise it writes the kinematic translation
for time `t`. -/
def frame (startPosition direction : Vec3) (speed : ℚ) (t : ℚ) (s : State) : State :=
  if s.active then { s with position := nextPosition startPosition direction speed t }
  else s

/-- A sequence of `useFrame` ticks at the given elapsed times, in order. -/
def runFrames (startPosition direction : Vec3) (speed : ℚ) (ts : List ℚ) (s : State) : State :=
  ts.foldl (fun s t => frame startPosition direction speed t s) s

/-- The `setTimeout(duration)` handler of `FireBall.tsx` (lines 36-48).
Input: the `active` flag and `rigidRef.current?.translation()`.
Output: the new `active` flag and the number of `onComplete` invocations.
When a translation is available, the branch that would show the terminal
explosion is commented out in the source, so the handler only deactivates;
`onComplete` is reached only in the `else` branch (no rigid body). -/
def durationTimeout (active : Bool) (currentPos : Option Vec3) : Bool × Nat :=
  if active then
    match currentPos with
    | some _ => (false, 0)
    | none => (false, 1)
  else (active, 0)

/-- The collision handler `handleCollision` composed with the explosion
completion `handleExplosionComplete`: when the fireball is active and
`onHit` is absent or returns `true`, the fireball deactivates and exactly
one `onComplete` eventually fires (directly, or after the explosion).
`onHitResult` is `none` when no `onHit` prop was passed. -/
def handleCollision (active : Bool) (onHitResult : Option Bool) : Bool × Nat :=
  if active then
    if onHitResult.getD true then (false, 1) else (active, 0)
  else (active, 0)

end Freeview.FireBall

namespace Freeview.Projectile

/-!
Embedding of `basic-3d-freeview/src/components/r3f/Projectile.tsx`.
-/

/-- State of one `Projectile` component: position of the rendered group,
`distanceTraveled.current`, the `active` React state, and counters for the
`onHit` and `onComplete` callbacks. -/
structure State where
  position : Vec3
  distanceTraveled : ℚ
  active : Bool
  hits : Nat
  completions : Nat
  deriving DecidableEq

/-- `removeBall` (lines 34-39): if the projectile is still active,
deactivate it and invoke `onComplete` once; otherwise do nothing. -/
def removeBall (s : State) : State :=
  if s.active then { s with active := false, completions := s.completions + 1 }
  else s

/-- One `useFrame` tick (lines 80-118). `hit` is the result of the external
`world.castRay` swept query: the time-of-impact of the nearest hit within
`frameTravelDistance`, or `none`; the ray cast returns at most one hit.
Order of operations as in the source: the distance-cap check comes first
and, when it fires, snaps the position to `endPosition` and removes the
ball without ray casting or integrating further; otherwise the travelled
distance is committed, and a hit snaps the position to the hit point,
fires `onHit` and removes the ball, while no hit advances the position. -/
def frameStep (endPosition direction : Vec3) (totalDistance speed delta : ℚ)
    (hit : Option ℚ) (s : State) : State :=
  if s.active then
    let frameTravel := speed * delta
    let newDist := s.distanceTraveled + frameTravel
    if totalDistance ≤ newDist then
      removeBall { s with position := endPosition }
    else
      let s1 := { s with distanceTraveled := newDist }
      match hit with
      | some toi =>
          removeBall { s1 with
            position := s1.position.add (direction.multiplyScalar toi),
            hits := s1.hits + 1 }
      | none => { s1 with position := s1.position.add (direction.multiplyScalar frameTravel) }
  else s

end Freeview.Projectile

namespace Freeview.ProjectileSystem

/-!
Embedding of `basic-3d-freeview/src/components/r3f/ProjectileSystem.tsx`.
-/

/-- One entry of the `projectiles` state array. -/
structure ProjectileData where
  id : Nat
  startPosition : Vec3
  endPosition : Vec3
  speed : ℚ
  deriving DecidableEq

/-- `spawnProjectile` (lines 43-72): allocates `nextProjectileId++` and
appends a new entry to the `projectiles` array. There is no validation of
any input and no error return; the function returns the updated array and
counter. The direction of flight is derived later, inside `Projectile`, as
`(endPosition - startPosition).normalize()`, so a request with
`endPosition = startPosition` is the zero-direction request. -/
def spawnProjectile (ps : List ProjectileData) (nextProjectileId : Nat)
    (startPos endPos : Vec3) (speed : ℚ) : List ProjectileData × Nat :=
  (ps ++ [⟨nextProjectileId, startPos, endPos, speed⟩], nextProjectileId + 1)

/-- `cleanupProjectile` (lines 75-77): removes the entry with the given id
by filtering the array. -/
def cleanupProjectile (ps : List ProjectileData) (id : Nat) : List ProjectileData :=
  ps.filter (fun p => p.id ≠ id)

end Freeview.ProjectileSystem

namespace Tps.ProjectileSystem

/-!
Embedding of the tps `ProjectileSystem` (second component in
`basic-3d-tps/src/components/projectile/FireballProjectile.tsx`).
The source allocates ids with `uuidv4()`; ids are modelled as `Nat`
(only their equality is consumed).
-/

/-- One entry of the `projectiles` state array (`ProjectileInfo`). -/
structure ProjectileInfo where
  id : Nat
  position : Vec3
  direction : Vec3
  createdAt : ℚ
  deriving DecidableEq

/-- `fireProjectile` (lines 156-174): unconditionally appends a new
projectile record and returns its id. There is no validation of the
direction and no error signal. -/
def fireProjectile (ps : List ProjectileInfo) (id : Nat) (now : ℚ)
    (position direction : Vec3) : List ProjectileInfo × Nat :=
  (ps ++ [⟨id, position, direction, now⟩], id)

/-- `removeProjectile` (lines 177-179): removes the entry with the given id
by filtering the array. -/
def removeProjectile (ps : List ProjectileInfo) (id : Nat) : List ProjectileInfo :=
  ps.filter (fun p => p.id ≠ id)

end Tps.ProjectileSystem

namespace Tps.BaseProjectile

/-!
Embedding of `basic-3d-tps/src/projectiles/BaseProjectile.tsx`.
-/

/-- State of one `BaseProjectile`: the `isActive` React state and the
number of `onRemove` invocations. -/
structure State where
  isActive : Bool
  removals : Nat
  deriving DecidableEq

/-- `deactivateProjectile` (lines 62-76): ignore if already inactive,
otherwise deactivate, disable the physics body and call `onRemove` once. -/
def deactivateProjectile (s : State) : State :=
  if s.isActive then { s with isActive := false, removals := s.removals + 1 }
  else s

end Tps.BaseProjectile

namespace Tps.ProjectileMagic

/-!
Embedding of `basic-3d-tps/src/magic/core/ProjectileMagic.tsx`.
-/

/-- The configuration props of `ProjectileMagic` that govern collision and
motion handling. `bounceCount` is the bounce budget prop, `homingStrength`
defaults to `0.1` in the source. -/
structure Config where
  piercing : Bool
  bouncing : Bool
  bounceCount : Nat
  maxDistance : Option ℚ
  homing : Bool
  homingStrength : ℚ
  deriving DecidableEq

/-- State of one `ProjectileMagic` entity.

`active` is the React state; `activeRef` is the ref that guards every
handler (`if (!activeRef.current) return`). The source synchronises
`activeRef.current = active` only in a `useEffect`, i.e. after the render
commit, never inside an event batch: `deactivateProjectile` calls
`setActive(false)` but does not write `activeRef`. `hits` is the ordered
log of target ids passed to `onHit`; `completions` counts `onComplete`
invocations. -/
structure State where
  active : Bool
  activeRef : Bool
  bounceCountRef : Nat
  distanceTraveled : ℚ
  hits : List Nat
  completions : Nat
  position : Vec3
  velocity : Vec3
  deriving DecidableEq

/-- The initial state on mount: `useState(true)`, `activeRef = true`,
`bounceCountRef = 0`, `distanceTraveledRef = 0`, no callbacks fired. -/
def initialState (position velocity : Vec3) : State :=
  ⟨true, true, 0, 0, [], 0, position, velocity⟩

/-- `deactivateProjectile` (lines 77-90): return if `activeRef` is already
false; otherwise `setActive(false)`, disable the physics body, and call
`onComplete` once. Note that `activeRef` itself is not written here. -/
def deactivateProjectile (s : State) : State :=
  if s.activeRef then { s with active := false, completions := s.completions + 1 }
  else s

/-- `handleCollision` (lines 93-133) for one reported contact with target
id `target`: guarded by `activeRef`; piercing applies the effect and keeps
flying; bouncing within budget reflects the velocity (negating x and z) and
applies the effect; otherwise the effect is applied and the projectile is
deactivated. There is no record of already-hit targets. -/
def handleCollision (cfg : Config) (target : Nat) (s : State) : State :=
  if s.activeRef then
    if cfg.piercing then
      { s with hits := s.hits ++ [target] }
    else if cfg.bouncing && s.bounceCountRef < cfg.bounceCount then
      { s with
        bounceCountRef := s.bounceCountRef + 1,
        velocity := ⟨-s.velocity.x, s.velocity.y, -s.velocity.z⟩,
        hits := s.hits ++ [target] }
    else
      deactivateProjectile { s with hits := s.hits ++ [target] }
  else s

/-- All contacts reported by the physics collaborator within one tick, in
report order, each dispatched to `handleCollision`
(`onCollisionEnter` / `onIntersectionEnter` on the `RigidBody`). -/
def processContacts (cfg : Config) (targets : List Nat) (s : State) : State :=
  targets.foldl (fun s t => handleCollision cfg t s) s

/-- The `useEffect(() => { activeRef.current = active })` commit step. -/
def syncActiveRef (s : State) : State :=
  { s with activeRef := s.active }

/-- The homing computation of the `useFrame` body (lines 205-234), starting
from the already-normalised current and target directions: the new velocity
is `currentDirection.lerp(targetDirection, alpha).multiplyScalar(currentSpeed)`
with `alpha = homingStrength * delta * 10`. The source comment asserts the
speed magnitude is preserved, but the lerp result is not renormalised. -/
def homingNewVelocity (currentDirection targetDirection : Vec3)
    (currentSpeed alpha : ℚ) : Vec3 :=
  (currentDirection.lerp targetDirection alpha).multiplyScalar currentSpeed

/-- The homing block of `useFrame`: runs only when `homing` is set, a
target is available and `homingStrength > 0`. `targetDirection` stands for
the normalised vector from the current position to the target, an input
because normalisation leaves `ℚ`; `speed` stands for the scalar
`Math.sqrt(linvel · linvel)`. `v.multiplyScalar speed⁻¹` is
`currentVelocity.clone().normalize()` (for `speed = 0` both give the zero
vector, since `(0 : ℚ)⁻¹ = 0` and THREE divides by `length || 1`). -/
def homingStep (cfg : Config) (speed delta : ℚ) (targetDirection : Option Vec3)
    (s : State) : State :=
  if cfg.homing then
    match targetDirection with
    | some td =>
        if 0 < cfg.homingStrength then
          let newVelocity :=
            homingNewVelocity (s.velocity.multiplyScalar speed⁻¹) td speed
              (cfg.homingStrength * delta * 10)
          { s with velocity := newVelocity }
        else s
    | none => s
  else s

/-- The `useFrame` callback (lines 185-235) together with the physics
integration of the enabled rigid body over the frame. Guarded by
`activeRef`; the body first advances by `velocity * delta`; then, when
`maxDistance` is truthy, `distanceTraveledRef += speed * delta` and the
projectile is deactivated as soon as the accumulated distance reaches
`maxDistance` — without clamping the position or the distance back to the
cap; otherwise the homing block runs. As in `homingStep`, the scalar
`speed` parameter stands for the source's
`Math.sqrt(linvel.x² + linvel.y² + linvel.z²)`, passed explicitly because
the square root leaves `ℚ`; every theorem below instantiates it with the
exact magnitude of `velocity`. -/
def updateFrame (cfg : Config) (speed delta : ℚ) (targetDirection : Option Vec3)
    (s : State) : State :=
  if s.activeRef then
    let s1 := { s with position := s.position.add (s.velocity.multiplyScalar delta) }
    if jsTruthy cfg.maxDistance then
      let d := s1.distanceTraveled + speed * delta
      let s2 := { s1 with distanceTraveled := d }
      if cfg.maxDistance.getD 0 ≤ d then deactivateProjectile s2
      else homingStep cfg speed delta targetDirection s2
    else homingStep cfg speed delta targetDirection s1
  else s

/-- One full simulation tick at commit granularity: the frame callback
followed by the React commit that synchronises `activeRef`. -/
def magicTick (cfg : Config) (speed delta : ℚ) (targetDirection : Option Vec3)
    (s : State) : State :=
  syncActiveRef (updateFrame cfg speed delta targetDirection s)

/-- The operations that can reach a `ProjectileMagic` entity between ticks:
a reported collision, the `duration` timeout (which runs
`deactivateProjectile`), and the two calls of the imperative handle
(lines 170-182): `deactivate` is `deactivateProjectile` and `activate` is
`() => setActive(true)`. -/
inductive Op where
  | collide (target : Nat)
  | timeout
  | deactivateCall
  | activateCall
  deriving DecidableEq

/-- Apply one operation at commit granularity (the React commit follows the
event, so `activeRef` is synchronised afterwards). -/
def applyOp (cfg : Config) (op : Op) (s : State) : State :=
  syncActiveRef (match op with
    | .collide t => handleCollision cfg t s
    | .timeout => deactivateProjectile s
    | .deactivateCall => deactivateProjectile s
    | .activateCall => { s with active := true })

end Tps.ProjectileMagic

namespace Guide.Bullet

/-!
Embedding of the config plumbing of
`basic-3d-freeview/src/example/fireball/spells/fireball/FireBall-Implementaion-guide.tsx`
(lines 293-350). The vector fields and `color` are omitted: the claims are
about the numeric falsy-coalesced fields.
-/

/-- `const DEFAULT_SPEED = 100`. -/
def DEFAULT_SPEED : ℚ := 100

/-- `const DEFAULT_DURATION = 2000`. -/
def DEFAULT_DURATION : ℚ := 2000

/-- `const DEFAULT_SCALE = 1`. -/
def DEFAULT_SCALE : ℚ := 1

/-- `const DEFAULT_MUZZLE_FLASH_DURATION = 100`. -/
def DEFAULT_MUZZLE_FLASH_DURATION : ℚ := 100

/-- The optional numeric fields of `BulletEffectConfig` / of the incoming
config bag (absent field = `none`, present field = `some v`). -/
structure BulletEffectConfig where
  speed : Option ℚ
  duration : Option ℚ
  scale : Option ℚ
  flashDuration : Option ℚ
  deriving DecidableEq

/-- The numeric fields produced by parsing / serialising. -/
structure ParsedConfig where
  speed : ℚ
  duration : ℚ
  scale : ℚ
  flashDuration : ℚ
  deriving DecidableEq

/-- `parseConfig` (lines 340-350): every numeric field goes through
`config.field || DEFAULT`, so an absent field and a `0` field both become
the default. The parsed speed is the one handed to `Bullet` by
`BulletEffectController`. -/
def parseConfig (c : BulletEffectConfig) : ParsedConfig :=
  ⟨jsOr c.speed DEFAULT_SPEED,
   jsOr c.duration DEFAULT_DURATION,
   jsOr c.scale DEFAULT_SCALE,
   jsOr c.flashDuration DEFAULT_MUZZLE_FLASH_DURATION⟩

/-- `createBulletEffectConfig` (lines 328-338): the serialisation side uses
the same `|| DEFAULT` coalescing for the same fields. -/
def createBulletEffectConfig (c : BulletEffectConfig) : ParsedConfig :=
  ⟨jsOr c.speed DEFAULT_SPEED,
   jsOr c.duration DEFAULT_DURATION,
   jsOr c.scale DEFAULT_SCALE,
   jsOr c.flashDuration DEFAULT_MUZZLE_FLASH_DURATION⟩

end Guide.Bullet

/-! ## Helper lemmas -/

/-- A `useFrame` tick of the freeview fireball never changes the `active`
flag (only the timeout or a collision does). -/
theorem Freeview.FireBall.frame_active (startPosition direction : Vec3)
    (speed t : ℚ) (s : State) :
    (frame startPosition direction speed t s).active = s.active := by
  unfold frame
  split <;> rfl

/-- Running any sequence of `useFrame` ticks preserves the `active` flag. -/
theorem Freeview.FireBall.runFrames_active (startPosition direction : Vec3)
    (speed : ℚ) (ts : List ℚ) (s : State) :
    (runFrames startPosition direction speed ts s).active = s.active := by
  induction ts generalizing s with
  | nil => rfl
  | cons t ts ih =>
      have h1 : runFrames startPosition direction speed (t :: ts) s =
          runFrames startPosition direction speed ts (frame startPosition direction speed t s) := rfl
      rw [h1, ih, frame_active]

/-- `handleCollision` of `ProjectileMagic` for a piercing projectile with a
live guard: the only change is the appended `onHit` record. -/
theorem Tps.ProjectileMagic.handleCollision_piercing (cfg : Config) (t : Nat)
    (s : State) (hp : cfg.piercing = true) (ha : s.activeRef = true) :
    handleCollision cfg t s = { s with hits := s.hits ++ [t] } := by
  simp [handleCollision, hp, ha]

/-- `handleCollision` of `ProjectileMagic` for a standard (non-piercing,
non-bouncing) projectile with a live guard ref: the effect is applied and
`deactivateProjectile` deactivates and completes — but `activeRef` itself
stays `true` until the next commit. -/
theorem Tps.ProjectileMagic.handleCollision_standard (cfg : Config) (t : Nat)
    (s : State) (hp : cfg.piercing = false) (hb : cfg.bouncing = false)
    (ha : s.activeRef = true) :
    handleCollision cfg t s =
      { s with hits := s.hits ++ [t], active := false, completions := s.completions + 1 } := by
  simp [handleCollision, hp, hb, ha, deactivateProjectile]

/-! ## Claim theorems -/

/-- C1: the claim states that every spawned entity produces exactly one
completion notification, never zero. The freeview `FireBall` refutes the
"never zero" half at its expiry path: the duration-timeout handler, run on
an active fireball whose rigid body is mounted (so `translation()` is
available), deactivates the fireball but fires `onComplete` zero times —
the explosion branch is commented out and `onComplete` sits only in the
`else` branch. The `none` case and `removeBall` of `Projectile.tsx` show
the intended exactly-once behaviour (the guard makes a second invocation a
no-op), so the zero-completions expiry path is a slip, not a design. -/
theorem spec_c1 :
    Freeview.FireBall.durationTimeout true (some ⟨0, 0, 10⟩) = (false, 0) ∧
    Freeview.FireBall.durationTimeout true none = (false, 1) ∧
    (∀ s : Freeview.Projectile.State,
      Freeview.Projectile.removeBall (Freeview.Projectile.removeBall s) =
        Freeview.Projectile.removeBall s) := by
  refine ⟨rfl, rfl, ?_⟩
  intro s
  unfold Freeview.Projectile.removeBall
  split_ifs <;> simp_all

/-- C2 (amended): neither spawn operation validates its input or signals an
error. For every request — including a zero direction (for the freeview
system: `endPos = startPos`, from which the zero direction is derived) and
a non-positive speed — exactly one entity is appended to the active set,
so the registry is never left unchanged and the caller receives no failure
signal. -/
theorem spec_c2 :
    (∀ (ps : List Freeview.ProjectileSystem.ProjectileData) (n : Nat)
        (startPos endPos : Vec3) (speed : ℚ),
      (Freeview.ProjectileSystem.spawnProjectile ps n startPos endPos speed).1.length =
          ps.length + 1 ∧
      (Freeview.ProjectileSystem.spawnProjectile ps n startPos endPos speed).1 ≠ ps) ∧
    (∀ (ps : List Tps.ProjectileSystem.ProjectileInfo) (id : Nat) (now : ℚ)
        (position direction : Vec3),
      (Tps.ProjectileSystem.fireProjectile ps id now position direction).1.length =
          ps.length + 1 ∧
      (Tps.ProjectileSystem.fireProjectile ps id now position direction).1 ≠ ps) := by
  constructor
  · intro ps n startPos endPos speed
    refine ⟨by simp [Freeview.ProjectileSystem.spawnProjectile], ?_⟩
    intro h
    have h1 := congrArg List.length h
    simp [Freeview.ProjectileSystem.spawnProjectile] at h1
  · intro ps id now position direction
    refine ⟨by simp [Tps.ProjectileSystem.fireProjectile], ?_⟩
    intro h
    have h1 := congrArg List.length h
    simp [Tps.ProjectileSystem.fireProjectile] at h1

/-- C2, counterexample to the claim as stated: a spawn request with the
zero direction (`endPos = startPos`, resp. `direction = 0`) and `speed = 0`
does not fail fast and does not leave the registry unchanged — an entity
is created. -/
theorem spec_c2_counterexample :
    (Freeview.ProjectileSystem.spawnProjectile [] 0 ⟨0, 0, 0⟩ ⟨0, 0, 0⟩ 0).1.length = 1 ∧
    (Tps.ProjectileSystem.fireProjectile [] 0 0 ⟨0, 0, 0⟩ ⟨0, 0, 0⟩).1.length = 1 := by
  decide

/-- C5: the freeview `FireBall` is kinematic: whatever earlier frames did,
after a frame at elapsed time `t` the position equals
`startPosition + direction * speed * t` — a deterministic function of
elapsed time. Concretely, spawning at the origin towards `[0,0,1]` with
speed `10` puts the fireball at `[0,0,5]` at `t = 500ms`, and when the
`duration = 1000ms` timeout fires the entity is deactivated (removed). -/
theorem spec_c5 :
    (∀ (startPosition direction : Vec3) (speed : ℚ) (ts : List ℚ) (t : ℚ)
        (s : Freeview.FireBall.State), s.active = true →
      (Freeview.FireBall.runFrames startPosition direction speed (ts ++ [t]) s).position =
        Freeview.FireBall.nextPosition startPosition direction speed t) ∧
    Freeview.FireBall.nextPosition ⟨0, 0, 0⟩ ⟨0, 0, 1⟩ 10 (1 / 2) = ⟨0, 0, 5⟩ ∧
    (Freeview.FireBall.durationTimeout true
      (some (Freeview.FireBall.nextPosition ⟨0, 0, 0⟩ ⟨0, 0, 1⟩ 10 1))).1 = false := by
  refine ⟨?_, ?_, rfl⟩
  · intro startPosition direction speed ts t s hs
    have h1 : Freeview.FireBall.runFrames startPosition direction speed (ts ++ [t]) s =
        Freeview.FireBall.frame startPosition direction speed t
          (Freeview.FireBall.runFrames startPosition direction speed ts s) := by
      unfold Freeview.FireBall.runFrames
      rw [List.foldl_append]
      rfl
    have h2 := Freeview.FireBall.runFrames_active startPosition direction speed ts s
    rw [hs] at h2
    rw [h1]
    unfold Freeview.FireBall.frame
    rw [h2]
    simp
  · norm_num [Freeview.FireBall.nextPosition, Vec3.add, Vec3.multiplyScalar]

/-- C5 witness: the general part of `spec_c5` applied to a concrete frame
history `[1/10, 1/4]` followed by the sampled frame at `t = 1/2`. -/
theorem spec_c5_witness :
    (Freeview.FireBall.runFrames ⟨0, 0, 0⟩ ⟨0, 0, 1⟩ 10 ([1 / 10, 1 / 4] ++ [1 / 2])
      ⟨⟨0, 0, 0⟩, true⟩).position =
      Freeview.FireBall.nextPosition ⟨0, 0, 0⟩ ⟨0, 0, 1⟩ 10 (1 / 2) :=
  spec_c5.1 ⟨0, 0, 0⟩ ⟨0, 0, 1⟩ 10 [1 / 10, 1 / 4] (1 / 2) ⟨⟨0, 0, 0⟩, true⟩ rfl

/-- C9: removal from both projectile registries is a filter on the id, so
removing twice is the same as removing once, and removing an id that is
not in the registry leaves it unchanged. -/
theorem spec_c9 :
    (∀ (ps : List Freeview.ProjectileSystem.ProjectileData) (id : Nat),
      Freeview.ProjectileSystem.cleanupProjectile
          (Freeview.ProjectileSystem.cleanupProjectile ps id) id =
        Freeview.ProjectileSystem.cleanupProjectile ps id ∧
      ((∀ p ∈ ps, p.id ≠ id) → Freeview.ProjectileSystem.cleanupProjectile ps id = ps)) ∧
    (∀ (ps : List Tps.ProjectileSystem.ProjectileInfo) (id : Nat),
      Tps.ProjectileSystem.removeProjectile
          (Tps.ProjectileSystem.removeProjectile ps id) id =
        Tps.ProjectileSystem.removeProjectile ps id ∧
      ((∀ p ∈ ps, p.id ≠ id) → Tps.ProjectileSystem.removeProjectile ps id = ps)) := by
  constructor
  · intro ps id
    constructor
    · simp [Freeview.ProjectileSystem.cleanupProjectile, List.filter_filter]
    · intro h
      unfold Freeview.ProjectileSystem.cleanupProjectile
      exact List.filter_eq_self.mpr (fun a ha => by simpa using h a ha)
  · intro ps id
    constructor
    · simp [Tps.ProjectileSystem.removeProjectile, List.filter_filter]
    · intro h
      unfold Tps.ProjectileSystem.removeProjectile
      exact List.filter_eq_self.mpr (fun a ha => by simpa using h a ha)

/-- C9 witness: removing the absent id `3` from a one-entry registry leaves
it unchanged. -/
theorem spec_c9_witness :
    Freeview.ProjectileSystem.cleanupProjectile [⟨1, ⟨0, 0, 0⟩, ⟨0, 0, 0⟩, 5⟩] 3 =
      [⟨1, ⟨0, 0, 0⟩, ⟨0, 0, 0⟩, 5⟩] :=
  (spec_c9.1 [⟨1, ⟨0, 0, 0⟩, ⟨0, 0, 0⟩, 5⟩] 3).2 (by simp)

/-- C10: both `parseConfig` and `createBulletEffectConfig` coalesce every
falsy numeric field — absent or `0` — to the defaults (`speed 100`,
`duration 2000`, `scale 1`), instead of rejecting the spawn or preserving
the zero; the parsed speed is the one handed to the bullet, so a spawn
requested with `speed = 0` yields speed `100`. -/
theorem spec_c10 :
    ∀ c : Guide.Bullet.BulletEffectConfig,
      ((c.speed = some 0 ∨ c.speed = none) →
        (Guide.Bullet.parseConfig c).speed = Guide.Bullet.DEFAULT_SPEED) ∧
      ((c.duration = some 0 ∨ c.duration = none) →
        (Guide.Bullet.parseConfig c).duration = Guide.Bullet.DEFAULT_DURATION) ∧
      ((c.scale = some 0 ∨ c.scale = none) →
        (Guide.Bullet.parseConfig c).scale = Guide.Bullet.DEFAULT_SCALE) ∧
      Guide.Bullet.createBulletEffectConfig c = Guide.Bullet.parseConfig c := by
  intro c
  refine ⟨?_, ?_, ?_, rfl⟩ <;>
    rintro (h | h) <;> simp [Guide.Bullet.parseConfig, jsOr, h]

/-- C10 witness: a config with every field explicitly `0` parses to the
defaults on the speed field. -/
theorem spec_c10_witness :
    (Guide.Bullet.parseConfig ⟨some 0, some 0, some 0, some 0⟩).speed =
      Guide.Bullet.DEFAULT_SPEED :=
  (spec_c10 ⟨some 0, some 0, some 0, some 0⟩).1 (Or.inl rfl)

/-- C3 (amended): a piercing `ProjectileMagic` entity stays `Active` after
any sequence of contacts — the handler changes nothing but the `onHit` log.
However, there is no per-entity "already hit" set in the code: `onHit` is
applied once per reported contact, so repeated contact with one target
applies the payload repeatedly (see the counterexample). -/
theorem spec_c3 :
    ∀ (cfg : Tps.ProjectileMagic.Config) (ts : List Nat)
      (s : Tps.ProjectileMagic.State),
      cfg.piercing = true → s.activeRef = true →
      Tps.ProjectileMagic.processContacts cfg ts s = { s with hits := s.hits ++ ts } := by
  intro cfg ts s hp ha
  induction ts generalizing s with
  | nil => simp [Tps.ProjectileMagic.processContacts]
  | cons t ts ih =>
      have h1 : Tps.ProjectileMagic.processContacts cfg (t :: ts) s =
          Tps.ProjectileMagic.processContacts cfg ts
            (Tps.ProjectileMagic.handleCollision cfg t s) := rfl
      rw [h1, Tps.ProjectileMagic.handleCollision_piercing cfg t s hp ha,
        ih { s with hits := s.hits ++ [t] } ha]
      simp

/-- C3 witness: two contacts on a fresh piercing projectile leave it active
and append both to the hit log. -/
theorem spec_c3_witness :
    Tps.ProjectileMagic.processContacts ⟨true, false, 0, none, false, 1 / 10⟩ [7, 9]
      (Tps.ProjectileMagic.initialState ⟨0, 0, 0⟩ ⟨0, 0, 10⟩) =
    { Tps.ProjectileMagic.initialState ⟨0, 0, 0⟩ ⟨0, 0, 10⟩ with hits := [7, 9] } := by
  have h := spec_c3 ⟨true, false, 0, none, false, 1 / 10⟩ [7, 9]
    (Tps.ProjectileMagic.initialState ⟨0, 0, 0⟩ ⟨0, 0, 10⟩) rfl rfl
  simpa [Tps.ProjectileMagic.initialState] using h

/-- C3, counterexample to the claim as stated: a piercing projectile that
contacts the same target `7` twice applies the payload to that target
twice — there is no "already hit" set recording the target id. -/
theorem spec_c3_counterexample :
    ((Tps.ProjectileMagic.processContacts ⟨true, false, 0, none, false, 1 / 10⟩ [7, 7]
      (Tps.ProjectileMagic.initialState ⟨0, 0, 0⟩ ⟨0, 0, 10⟩)).hits.count 7) = 2 := by
  decide

/-- C7 (amended): the internal transitions of `ProjectileMagic` — a
reported collision, the duration timeout, and the handle's `deactivate` —
are monotone: none of them can turn an inactive (consumed/expired) entity
active again; likewise `BaseProjectile.deactivateProjectile`. But the
imperative handle also exposes `activate: () => setActive(true)`, which
does return a deactivated entity to `Active` (see the counterexample). -/
theorem spec_c7 :
    (∀ (cfg : Tps.ProjectileMagic.Config) (op : Tps.ProjectileMagic.Op)
        (s : Tps.ProjectileMagic.State), op ≠ Tps.ProjectileMagic.Op.activateCall →
      (Tps.ProjectileMagic.applyOp cfg op s).active = true → s.active = true) ∧
    (∀ s : Tps.BaseProjectile.State,
      (Tps.BaseProjectile.deactivateProjectile s).isActive = true → s.isActive = true) := by
  constructor
  · intro cfg op s hop
    cases op with
    | activateCall => exact absurd rfl hop
    | collide t =>
        simp only [Tps.ProjectileMagic.applyOp, Tps.ProjectileMagic.syncActiveRef,
          Tps.ProjectileMagic.handleCollision, Tps.ProjectileMagic.deactivateProjectile]
        split_ifs <;> simp_all
    | timeout =>
        simp only [Tps.ProjectileMagic.applyOp, Tps.ProjectileMagic.syncActiveRef,
          Tps.ProjectileMagic.deactivateProjectile]
        split_ifs <;> simp_all
    | deactivateCall =>
        simp only [Tps.ProjectileMagic.applyOp, Tps.ProjectileMagic.syncActiveRef,
          Tps.ProjectileMagic.deactivateProjectile]
        split_ifs <;> simp_all
  · intro s
    unfold Tps.BaseProjectile.deactivateProjectile
    split_ifs <;> simp_all

/-- C7 witness: the monotonicity part applied to a piercing collision on a
fresh entity, which stays active. -/
theorem spec_c7_witness :
    (Tps.ProjectileMagic.initialState ⟨0, 0, 0⟩ ⟨0, 0, 10⟩).active = true :=
  spec_c7.1 ⟨true, false, 0, none, false, 1 / 10⟩ (Tps.ProjectileMagic.Op.collide 3)
    (Tps.ProjectileMagic.initialState ⟨0, 0, 0⟩ ⟨0, 0, 10⟩) (by decide) (by decide)

/-- C7, counterexample to the claim as stated: the sequence
`deactivate` (the entity is consumed/expired, `active = false`) followed by
the handle call `activate()` returns the entity to `Active`. -/
theorem spec_c7_counterexample :
    (Tps.ProjectileMagic.applyOp ⟨false, false, 0, none, false, 1 / 10⟩
      Tps.ProjectileMagic.Op.deactivateCall
      (Tps.ProjectileMagic.initialState ⟨0, 0, 0⟩ ⟨0, 0, 10⟩)).active = false ∧
    (Tps.ProjectileMagic.applyOp ⟨false, false, 0, none, false, 1 / 10⟩
      Tps.ProjectileMagic.Op.activateCall
      (Tps.ProjectileMagic.applyOp ⟨false, false, 0, none, false, 1 / 10⟩
        Tps.ProjectileMagic.Op.deactivateCall
        (Tps.ProjectileMagic.initialState ⟨0, 0, 0⟩ ⟨0, 0, 10⟩))).active = true := by
  decide

/-- C8 (amended): per tick, the freeview `Projectile` swept path applies at
most one payload and at most one completion, because the external ray cast
yields at most one (nearest) hit. In `ProjectileMagic`, however, the
`activeRef` guard is synchronised only at the commit after the tick, so
when N simultaneous contacts are reported within one tick against a
standard projectile, every one of them applies the payload and fires the
completion callback: N payload applications and N completions, not exactly
one (see the counterexample). -/
theorem spec_c8 :
    (∀ (endPosition direction : Vec3) (totalDistance speed delta : ℚ) (hit : Option ℚ)
        (s : Freeview.Projectile.State),
      (Freeview.Projectile.frameStep endPosition direction totalDistance speed delta hit s).hits ≤
          s.hits + 1 ∧
      (Freeview.Projectile.frameStep endPosition direction totalDistance speed delta hit
          s).completions ≤ s.completions + 1) ∧
    (∀ (cfg : Tps.ProjectileMagic.Config) (ts : List Nat) (s : Tps.ProjectileMagic.State),
      cfg.piercing = false → cfg.bouncing = false → s.activeRef = true →
      (Tps.ProjectileMagic.processContacts cfg ts s).hits = s.hits ++ ts ∧
      (Tps.ProjectileMagic.processContacts cfg ts s).completions =
        s.completions + ts.length) := by
  constructor
  · intro endPosition direction totalDistance speed delta hit s
    unfold Freeview.Projectile.frameStep Freeview.Projectile.removeBall
    cases hit <;> split_ifs <;> simp_all <;> split_ifs <;> simp_all
  · intro cfg ts s hp hb ha
    induction ts generalizing s with
    | nil => simp [Tps.ProjectileMagic.processContacts]
    | cons t ts ih =>
        have h1 : Tps.ProjectileMagic.processContacts cfg (t :: ts) s =
            Tps.ProjectileMagic.processContacts cfg ts
              (Tps.ProjectileMagic.handleCollision cfg t s) := rfl
        rw [h1, Tps.ProjectileMagic.handleCollision_standard cfg t s hp hb ha]
        have h2 := ih { s with hits := s.hits ++ [t], active := false, completions := s.completions + 1 } ha
        refine ⟨?_, ?_⟩
        · rw [h2.1]
          simp
        · rw [h2.2]
          simp [Nat.add_assoc, Nat.add_comm 1]

/-- C8 witness: the `ProjectileMagic` part applied to two contacts on a
fresh standard projectile. -/
theorem spec_c8_witness :
    (Tps.ProjectileMagic.processContacts ⟨false, false, 0, none, false, 1 / 10⟩ [3, 4]
      (Tps.ProjectileMagic.initialState ⟨0, 0, 0⟩ ⟨0, 0, 10⟩)).hits =
        (Tps.ProjectileMagic.initialState ⟨0, 0, 0⟩ ⟨0, 0, 10⟩).hits ++ [3, 4] ∧
    (Tps.ProjectileMagic.processContacts ⟨false, false, 0, none, false, 1 / 10⟩ [3, 4]
      (Tps.ProjectileMagic.initialState ⟨0, 0, 0⟩ ⟨0, 0, 10⟩)).completions =
        (Tps.ProjectileMagic.initialState ⟨0, 0, 0⟩ ⟨0, 0, 10⟩).completions + [3, 4].length :=
  spec_c8.2 ⟨false, false, 0, none, false, 1 / 10⟩ [3, 4]
    (Tps.ProjectileMagic.initialState ⟨0, 0, 0⟩ ⟨0, 0, 10⟩) rfl rfl rfl

/-- C8, counterexample to the claim as stated: two simultaneous contacts
reported in one tick against a standard (non-piercing) `ProjectileMagic`
projectile produce two payload applications and two completion callbacks,
not exactly one — both handler runs pass the stale `activeRef` guard. -/
theorem spec_c8_counterexample :
    ((Tps.ProjectileMagic.processContacts ⟨false, false, 0, none, false, 1 / 10⟩ [1, 2]
      (Tps.ProjectileMagic.initialState ⟨0, 0, 0⟩ ⟨0, 0, 10⟩)).hits.length = 2) ∧
    ((Tps.ProjectileMagic.processContacts ⟨false, false, 0, none, false, 1 / 10⟩ [1, 2]
      (Tps.ProjectileMagic.initialState ⟨0, 0, 0⟩ ⟨0, 0, 10⟩)).completions = 2) := by
  decide

/-- C4 (amended): when the distance cap is reached the entity is retired
that tick, with priority over a hit and over further integration, and
before the lifetime would expire. In the freeview `Projectile`, reaching
the cap clamps the final position to the endpoint and leaves the recorded
distance at its pre-cap value, which therefore never exceeds the cap; on
the concrete scenario (`speed = 10`, cap `20`, lifetime `10000ms`,
one-second ticks) the `ProjectileMagic` entity is still active after the
first tick and is retired by the distance cap on the second tick
(`t = 2000ms`), with one completion, and the later lifetime timer is a
no-op. In `ProjectileMagic`, however, the recorded distance and position
are not clamped back to the cap (see the counterexample). -/
theorem spec_c4 :
    (∀ (endPosition direction : Vec3) (totalDistance speed delta : ℚ) (hit : Option ℚ)
        (s : Freeview.Projectile.State),
      s.active = true → totalDistance ≤ s.distanceTraveled + speed * delta →
      Freeview.Projectile.frameStep endPosition direction totalDistance speed delta hit s =
        ⟨endPosition, s.distanceTraveled, false, s.hits, s.completions + 1⟩) ∧
    (∀ (endPosition direction : Vec3) (totalDistance speed delta : ℚ) (hit : Option ℚ)
        (s : Freeview.Projectile.State),
      (Freeview.Projectile.frameStep endPosition direction totalDistance speed delta hit
          s).distanceTraveled ≤ max s.distanceTraveled totalDistance) ∧
    ((Tps.ProjectileMagic.magicTick ⟨false, false, 0, some 20, false, 1 / 10⟩ 10 1 none
        (Tps.ProjectileMagic.initialState ⟨0, 0, 0⟩ ⟨0, 0, 10⟩)).active = true ∧
      (Tps.ProjectileMagic.magicTick ⟨false, false, 0, some 20, false, 1 / 10⟩ 10 1 none
        (Tps.ProjectileMagic.initialState ⟨0, 0, 0⟩ ⟨0, 0, 10⟩)).completions = 0 ∧
      (Tps.ProjectileMagic.magicTick ⟨false, false, 0, some 20, false, 1 / 10⟩ 10 1 none
        (Tps.ProjectileMagic.magicTick ⟨false, false, 0, some 20, false, 1 / 10⟩ 10 1 none
          (Tps.ProjectileMagic.initialState ⟨0, 0, 0⟩ ⟨0, 0, 10⟩))).active = false ∧
      (Tps.ProjectileMagic.magicTick ⟨false, false, 0, some 20, false, 1 / 10⟩ 10 1 none
        (Tps.ProjectileMagic.magicTick ⟨false, false, 0, some 20, false, 1 / 10⟩ 10 1 none
          (Tps.ProjectileMagic.initialState ⟨0, 0, 0⟩ ⟨0, 0, 10⟩))).completions = 1 ∧
      (Tps.ProjectileMagic.magicTick ⟨false, false, 0, some 20, false, 1 / 10⟩ 10 1 none
        (Tps.ProjectileMagic.magicTick ⟨false, false, 0, some 20, false, 1 / 10⟩ 10 1 none
          (Tps.ProjectileMagic.initialState ⟨0, 0, 0⟩ ⟨0, 0, 10⟩))).distanceTraveled = 20 ∧
      Tps.ProjectileMagic.deactivateProjectile
        (Tps.ProjectileMagic.magicTick ⟨false, false, 0, some 20, false, 1 / 10⟩ 10 1 none
          (Tps.ProjectileMagic.magicTick ⟨false, false, 0, some 20, false, 1 / 10⟩ 10 1 none
            (Tps.ProjectileMagic.initialState ⟨0, 0, 0⟩ ⟨0, 0, 10⟩))) =
        Tps.ProjectileMagic.magicTick ⟨false, false, 0, some 20, false, 1 / 10⟩ 10 1 none
          (Tps.ProjectileMagic.magicTick ⟨false, false, 0, some 20, false, 1 / 10⟩ 10 1 none
            (Tps.ProjectileMagic.initialState ⟨0, 0, 0⟩ ⟨0, 0, 10⟩))) := by
  refine ⟨?_, ?_, ?_⟩
  · intro endPosition direction totalDistance speed delta hit s hact hcap
    unfold Freeview.Projectile.frameStep Freeview.Projectile.removeBall
    simp [hact, hcap]
  · intro endPosition direction totalDistance speed delta hit s
    unfold Freeview.Projectile.frameStep Freeview.Projectile.removeBall
    cases hit <;> split_ifs <;> simp_all <;> try split_ifs <;> simp_all
    all_goals
      first
      | exact le_max_left _ _
      | (rename_i hnc _; exact Or.inr hnc.le)
      | (rename_i hnc; exact Or.inr hnc.le)
  · norm_num [Tps.ProjectileMagic.magicTick, Tps.ProjectileMagic.updateFrame,
      Tps.ProjectileMagic.initialState, Tps.ProjectileMagic.deactivateProjectile,
      Tps.ProjectileMagic.homingStep, Tps.ProjectileMagic.syncActiveRef, jsTruthy,
      Vec3.add, Vec3.multiplyScalar]

/-- C4 witness: the clamp part of `spec_c4` applied concretely: an active
projectile with `totalDistance = 20` whose next frame would travel to
distance `0 + 10 * 2 = 20` is retired with its position snapped to the
endpoint and its recorded distance unchanged. -/
theorem spec_c4_witness :
    Freeview.Projectile.frameStep ⟨0, 0, 20⟩ ⟨0, 0, 1⟩ 20 10 2 none
      ⟨⟨0, 0, 0⟩, 0, true, 0, 0⟩ = ⟨⟨0, 0, 20⟩, 0, false, 0, 0 + 1⟩ :=
  spec_c4.1 ⟨0, 0, 20⟩ ⟨0, 0, 1⟩ 20 10 2 none ⟨⟨0, 0, 0⟩, 0, true, 0, 0⟩ rfl (by norm_num)

/-- C4, counterexample to the claim as stated: in `ProjectileMagic` with
`maxDistance = 4`, `speed = 10` and a tick of one second, the frame
advances the body the full step and accumulates `distanceTraveled = 10`
before deactivating: the final recorded distance and position overshoot
the configured budget `4` and are not clamped to the cap boundary. -/
theorem spec_c4_counterexample :
    (Tps.ProjectileMagic.updateFrame ⟨false, false, 0, some 4, false, 1 / 10⟩ 10 1 none
      (Tps.ProjectileMagic.initialState ⟨0, 0, 0⟩ ⟨0, 0, 10⟩)).distanceTraveled = 10 ∧
    (Tps.ProjectileMagic.updateFrame ⟨false, false, 0, some 4, false, 1 / 10⟩ 10 1 none
      (Tps.ProjectileMagic.initialState ⟨0, 0, 0⟩ ⟨0, 0, 10⟩)).position = ⟨0, 0, 10⟩ ∧
    (Tps.ProjectileMagic.updateFrame ⟨false, false, 0, some 4, false, 1 / 10⟩ 10 1 none
      (Tps.ProjectileMagic.initialState ⟨0, 0, 0⟩ ⟨0, 0, 10⟩)).active = false ∧
    (4 : ℚ) < 10 := by
  refine ⟨?_, ?_, ?_, by norm_num⟩ <;>
    norm_num [Tps.ProjectileMagic.updateFrame, Tps.ProjectileMagic.initialState,
      Tps.ProjectileMagic.deactivateProjectile, Tps.ProjectileMagic.homingStep, jsTruthy,
      Vec3.add, Vec3.multiplyScalar]

/-- C6: the homing block only rewrites the velocity — it leaves the
collision/payload state (`active`, `activeRef`, the `onHit` log and the
completion count) untouched — but it does not preserve the speed
magnitude, contrary to the claim and to the source's own comment: with
unit current direction `[0,0,1]`, unit target direction `[1,0,0]`,
current speed `10` and blend factor `1/2`, the new velocity is `[5,0,5]`
whose squared length is `50`, not `10² = 100` (the lerp result is not
renormalised before being scaled by the speed). -/
theorem spec_c6 :
    (∀ (cfg : Tps.ProjectileMagic.Config) (speed delta : ℚ) (td : Option Vec3)
        (s : Tps.ProjectileMagic.State),
      (Tps.ProjectileMagic.homingStep cfg speed delta td s).active = s.active ∧
      (Tps.ProjectileMagic.homingStep cfg speed delta td s).activeRef = s.activeRef ∧
      (Tps.ProjectileMagic.homingStep cfg speed delta td s).hits = s.hits ∧
      (Tps.ProjectileMagic.homingStep cfg speed delta td s).completions = s.completions) ∧
    Vec3.lengthSq ⟨0, 0, 1⟩ = 1 ∧
    Vec3.lengthSq ⟨1, 0, 0⟩ = 1 ∧
    Tps.ProjectileMagic.homingNewVelocity ⟨0, 0, 1⟩ ⟨1, 0, 0⟩ 10 (1 / 2) = ⟨5, 0, 5⟩ ∧
    Vec3.lengthSq (Tps.ProjectileMagic.homingNewVelocity ⟨0, 0, 1⟩ ⟨1, 0, 0⟩ 10 (1 / 2)) ≠
      10 * 10 := by
  refine ⟨?_, ?_, ?_, ?_, ?_⟩
  · intro cfg speed delta td s
    unfold Tps.ProjectileMagic.homingStep
    rcases td with _ | td <;> split_ifs <;> simp_all
  · norm_num [Vec3.lengthSq]
  · norm_num [Vec3.lengthSq]
  · norm_num [Tps.ProjectileMagic.homingNewVelocity, Vec3.lerp, Vec3.multiplyScalar]
  · norm_num [Tps.ProjectileMagic.homingNewVelocity, Vec3.lerp, Vec3.multiplyScalar,
      Vec3.lengthSq]
